import Mathlib

/-!
A verification development for the qTalos value-widget toolkit.

The Python sources are shallowly embedded: stateful widget methods become
pure functions on explicit state records, exceptions become `Except`
results, and Qt-side effects (signal emissions, indicator refreshes) are
recorded in an explicit event trace.  Machine floats appearing in the
numeric editors are modelled over `ℚ`; every concrete value reasoned about
below is exactly representable.
-/

namespace QTalos

/-- The exception classes of the toolkit.  `parsed_value.py` and
`plaintext_adapter.py` are not part of the sources at hand, so the class
taxonomy is modelled from the spec (§7): `ParseError`, `ValidationError`,
`PlaintextParseError`, `PlaintextPrintError` are the toolkit's failure
kinds; `valueError` and `otherError` stand for host-language exceptions
such as `ValueError` or `KeyError`. -/
inductive ExcKind where
  | parseError
  | validationError
  | plaintextParseError
  | plaintextPrintError
  | valueError
  | otherError (name : String)
  deriving Repr, DecidableEq

/-- A Python exception together with its (linear) `__cause__` chain.
`msg = none` models an exception whose `args` are the literal ellipsis
`(...,)`, which the diagnostic helpers in `qtalos/core/__util__.py` treat
specially.  `causes` lists the chained causes outermost-first, each as a
class/message pair. -/
structure PyError where
  kind : ExcKind
  msg : Option String
  causes : List (ExcKind × Option String)
  deriving Repr, DecidableEq

namespace PyError

/-- The cause chain to attach when raising `from e` (`none` = no cause). -/
def chainOf : Option PyError → List (ExcKind × Option String)
  | none => []
  | some e => (e.kind, e.msg) :: e.causes

/-- Models `raise ParseError(msg) from cause`. -/
def parseError (msg : Option String) (cause : Option PyError) : PyError :=
  ⟨.parseError, msg, chainOf cause⟩

/-- Models `raise ValidationError(msg) from cause`. -/
def validationError (msg : Option String) (cause : Option PyError) : PyError :=
  ⟨.validationError, msg, chainOf cause⟩

/-- Models `raise PlaintextParseError(msg) from cause`. -/
def plaintextParseError (msg : Option String) (cause : Option PyError) : PyError :=
  ⟨.plaintextParseError, msg, chainOf cause⟩

/-- Models `raise PlaintextPrintError(msg) from cause`. -/
def plaintextPrintError (msg : Option String) (cause : Option PyError) : PyError :=
  ⟨.plaintextPrintError, msg, chainOf cause⟩

/-- Models `raise ValueError(msg) from cause`. -/
def valueError (msg : Option String) (cause : Option PyError) : PyError :=
  ⟨.valueError, msg, chainOf cause⟩

/-- Models `type(e).__name__` for the modelled taxonomy. -/
def kindName : ExcKind → String
  | .parseError => "ParseError"
  | .validationError => "ValidationError"
  | .plaintextParseError => "PlaintextParseError"
  | .plaintextPrintError => "PlaintextPrintError"
  | .valueError => "ValueError"
  | .otherError n => n

/-- Whether the exception is caught by `except (ValidationError, ParseError)`
in `ValueWidget._reload_value`. -/
def isParseOrValidation (e : PyError) : Bool :=
  match e.kind with
  | .parseError | .validationError => true
  | _ => false

/-- Whether the exception is caught by `except PlaintextPrintError`. -/
def isPlaintextPrint (e : PyError) : Bool :=
  match e.kind with
  | .plaintextPrintError => true
  | _ => false

end PyError

/-- Join a list of strings with the separator used by `error_details`. -/
def joinFrom : List String → String
  | [] => ""
  | [s] => s
  | s :: rest => s ++ "\n\tfrom:\n" ++ joinFrom rest

/-- Models `error_details` from `qtalos/core/__util__.py`: walk the cause chain,
collecting `"Type: msg"` lines for exceptions whose args are not the
ellipsis, and the bare type names of every exception; join the first list
with the `from:` separator if it is nonempty, otherwise the second. -/
def error_details (e : PyError) : String :=
  let chain := (e.kind, e.msg) :: e.causes
  let ret := chain.filterMap fun km =>
    match km.2 with
    | some m => some (PyError.kindName km.1 ++ ": " ++ m)
    | none => none
  let typeNames := chain.map fun km => PyError.kindName km.1
  if ret.isEmpty then joinFrom typeNames else joinFrom ret

/-- A `ParsedValue` (modelled from the spec, §3 and §4.1:
`qtalos/core/parsed_value.py` is not among the sources): either
`Ok(value, details)` or `Err(error)`, immutable once constructed.  The
constructor names follow `ParsedValue.from_value` / `ParsedValue.from_error`
as used by `ValueWidget._reload_value`. -/
inductive ParsedValue (T : Type) where
  | from_value (value : T) (details : String)
  | from_error (error : PyError)
  deriving Repr, DecidableEq

namespace ParsedValue

/-- Models `ParsedValue.is_ok()`: whether the value was parsed and validated. -/
def is_ok {T : Type} : ParsedValue T → Bool
  | from_value _ _ => true
  | from_error _ => false

end ParsedValue

/-! ## The reactive `ValueWidget` core (`qtalos/core/value_widget.py`)

A widget's subclass-defined behaviour is a `WSpec`: `parse` reads the
visible UI state (type `U`), `validate` checks a parsed value, and
`printer` is the joined plaintext printer used for the detail string.
All three can fail with a `PyError`.  The mutable instance state is a
`WState`: the UI state, the cached `_value`, and the `_suppress_update`
flag.  Qt-side effects are recorded in a `Trace`. -/

/-- The subclass-defined behaviour of a `ValueWidget` over UI state `U`
with value type `T`: `parse` (abstract method), `validate` (runs the
injected `validation_func`), and the joined plaintext printer. -/
structure WSpec (U T : Type) where
  parse : U → Except PyError T
  validate : U → T → Except PyError Unit
  printer : U → T → Except PyError String

/-- The mutable state of a `ValueWidget` instance: visible UI state,
the cached `_value` (`none` = unset), and `_suppress_update`. -/
structure WState (U T : Type) where
  ui : U
  cache : Option (ParsedValue T)
  suppress : Bool
  deriving Repr, DecidableEq

/-- The observable Qt-side events of a widget-method run: how many times
the cache was invalidated (`_invalidate_value`), how many `on_change`
signals were emitted, how many (non-suppressed) indicator refreshes ran,
and how many times `_reload_value` recomputed the value. -/
structure Trace where
  invalidations : Nat
  emissions : Nat
  indicatorUpdates : Nat
  recomputes : Nat
  deriving Repr, DecidableEq

namespace Trace

/-- The empty trace. -/
def zero : Trace := ⟨0, 0, 0, 0⟩

/-- Concatenation of traces (componentwise sum). -/
def add (a b : Trace) : Trace :=
  ⟨a.invalidations + b.invalidations, a.emissions + b.emissions,
   a.indicatorUpdates + b.indicatorUpdates, a.recomputes + b.recomputes⟩

end Trace

/-- Models `ValueWidget._reload_value` as a function of the UI state: run
`parse`, then `validate`; capture `ParseError`/`ValidationError` into an
error `ParsedValue`; then compute the detail string with the joined
plaintext printer, degrading a `PlaintextPrintError` into an inline
error-description detail; any other exception escapes. -/
def reload_value {U T : Type} (w : WSpec U T) (ui : U) :
    Except PyError (ParsedValue T) :=
  match w.parse ui with
  | .error e =>
    if e.isParseOrValidation then .ok (.from_error e) else .error e
  | .ok v =>
    match w.validate ui v with
    | .error e =>
      if e.isParseOrValidation then .ok (.from_error e) else .error e
    | .ok () =>
      match w.printer ui v with
      | .error e =>
        if e.isPlaintextPrint then
          .ok (.from_value v
            ("details could not be loaded because of a parser error:\n" ++
              error_details e))
        else .error e
      | .ok details => .ok (.from_value v details)

/-- Models `ValueWidget.value()`: return the cached value if set, otherwise
recompute it via `_reload_value` and cache it.  An exception escaping
`_reload_value` propagates and leaves the cache unset. -/
def value {U T : Type} (w : WSpec U T) (s : WState U T) :
    Except PyError (ParsedValue T) × WState U T × Trace :=
  match s.cache with
  | some pv => (.ok pv, s, Trace.zero)
  | none =>
    match reload_value w s.ui with
    | .ok pv => (.ok pv, { s with cache := some pv }, ⟨0, 0, 0, 1⟩)
    | .error e => (.error e, s, ⟨0, 0, 0, 1⟩)

/-- Models `ValueWidget._update_indicator`: a no-op while updates are
suppressed; otherwise reads `self.value()` (recomputing if unset) and
refreshes the indicator widgets from it. -/
def update_indicator {U T : Type} (w : WSpec U T) (s : WState U T) :
    Except PyError Unit × WState U T × Trace :=
  if s.suppress then (.ok (), s, Trace.zero)
  else
    match value w s with
    | (.ok _, s', t) => (.ok (), s', t.add ⟨0, 0, 1, 0⟩)
    | (.error e, s', t) => (.error e, s', t)

/-- Models `ValueWidget.change_value`: invalidate the cached value, refresh the
indicator, then emit `on_change` (the emission does not happen if the
indicator refresh raised). -/
def change_value {U T : Type} (w : WSpec U T) (s : WState U T) :
    Except PyError Unit × WState U T × Trace :=
  let s1 : WState U T := { s with cache := none }
  match update_indicator w s1 with
  | (.ok (), s2, t) => (.ok (), s2, t.add ⟨1, 1, 0, 0⟩)
  | (.error e, s2, t) => (.error e, s2, t.add ⟨1, 0, 0, 0⟩)

/-- A primitive UI mutation: the underlying control state changes and the
control's Qt signal triggers the widget's connected `change_value` slot. -/
def apply_mutation {U T : Type} (w : WSpec U T) (f : U → U) (s : WState U T) :
    Except PyError Unit × WState U T × Trace :=
  change_value w { s with ui := f s.ui }

/-- Perform a sequence of UI mutations, each triggering `change_value`,
stopping at the first escaping exception. -/
def run_mutations {U T : Type} (w : WSpec U T) (fs : List (U → U))
    (s : WState U T) : Except PyError Unit × WState U T × Trace :=
  match fs with
  | [] => (.ok (), s, Trace.zero)
  | f :: rest =>
    match apply_mutation w f s with
    | (.ok (), s', t) =>
      match run_mutations w rest s' with
      | (r, s'', t') => (r, s'', t.add t')
    | err => err

/-- Models `ValueWidget.suppress_update` (as a context manager around a block of
UI mutations, with the default `new_value=True, call_on_exit=True`): save
`_suppress_update`, set it, run the block, restore the saved flag, and
call `change_value` once on exit.  If the block raises, the flag is not
restored and the exit `change_value` is skipped (the context manager has
no `try`/`finally`). -/
def suppress_update_region {U T : Type} (w : WSpec U T) (fs : List (U → U))
    (s : WState U T) : Except PyError Unit × WState U T × Trace :=
  let s1 : WState U T := { s with suppress := true }
  match run_mutations w fs s1 with
  | (.ok (), s2, t) =>
    let s3 : WState U T := { s2 with suppress := s.suppress }
    match change_value w s3 with
    | (r, s4, t') => (r, s4, t.add t')
  | err => err

/-- Folding a mutation list over a UI state: the net UI state after the
mutations ran. -/
def foldMutations {U : Type} (fs : List (U → U)) (u : U) : U :=
  fs.foldl (fun acc f => f acc) u

end QTalos

namespace QTalos

/-! ## Sample concrete widget used by the witnesses -/

/-- A concrete sample widget over integer UI state: `parse` returns the
UI integer, there is no validation function, and the joined printer
prints the integer. -/
def sampleSpec : WSpec Int Int where
  parse := fun u => .ok u
  validate := fun _ _ => .ok ()
  printer := fun _ v => .ok (toString v)

/-- A sample widget whose `parse` always raises a host-language
`ValueError` (neither a `ParseError` nor a `ValidationError`). -/
def sampleBadSpec : WSpec Int Int where
  parse := fun _ => .error (.valueError (some "boom") none)
  validate := fun _ _ => .ok ()
  printer := fun _ v => .ok (toString v)

/-! ## C1: cache invalidation and single recomputation -/

/-- C1: After `change_value()` on a widget whose `_reload_value`
succeeds on the current UI state, the cached `ParsedValue` has been
discarded and recomputed from the current UI state exactly once in total
(inside `change_value`'s indicator refresh when updates are not
suppressed, otherwise inside the next `value()` call); the next `value()`
call returns exactly the freshly parsed value of the current UI state,
and any further `value()` call with no intervening `change_value()`
returns the identical cached `ParsedValue` with no recomputation and no
state change.  Hence the cached value is never stale relative to the UI
state that `parse()` reads. -/
theorem c1_change_value_invalidates_then_single_recompute
    {U T : Type} (w : WSpec U T) (s : WState U T) (pv : ParsedValue T)
    (h : reload_value w s.ui = .ok pv) :
    (change_value w s).1 = .ok () ∧
    (change_value w s).2.1.ui = s.ui ∧
    (change_value w s).2.1.cache = (if s.suppress then none else some pv) ∧
    (change_value w s).2.2.invalidations = 1 ∧
    (change_value w s).2.2.recomputes +
      (value w (change_value w s).2.1).2.2.recomputes = 1 ∧
    (value w (change_value w s).2.1).1 = .ok pv ∧
    (value w (change_value w s).2.1).2.1.cache = some pv ∧
    value w (value w (change_value w s).2.1).2.1 =
      (.ok pv, (value w (change_value w s).2.1).2.1, Trace.zero) := by
  obtain ⟨ui, cache, sup⟩ := s
  cases sup <;>
    simp [change_value, update_indicator, value, h, Trace.add, Trace.zero]

/-- Witness for C1 at a concrete widget and state. -/
theorem c1_witness :
    reload_value sampleSpec (5 : Int) = .ok (.from_value 5 "5") ∧
    ((change_value sampleSpec ⟨5, some (.from_value 4 "4"), false⟩).1 = .ok () ∧
     (change_value sampleSpec ⟨5, some (.from_value 4 "4"), false⟩).2.1.ui = 5 ∧
     (change_value sampleSpec ⟨5, some (.from_value 4 "4"), false⟩).2.1.cache =
       (if (false : Bool) then none else some (.from_value 5 "5")) ∧
     (change_value sampleSpec ⟨5, some (.from_value 4 "4"), false⟩).2.2.invalidations = 1 ∧
     (change_value sampleSpec ⟨5, some (.from_value 4 "4"), false⟩).2.2.recomputes +
       (value sampleSpec (change_value sampleSpec ⟨5, some (.from_value 4 "4"), false⟩).2.1).2.2.recomputes = 1 ∧
     (value sampleSpec (change_value sampleSpec ⟨5, some (.from_value 4 "4"), false⟩).2.1).1 =
       .ok (.from_value 5 "5") ∧
     (value sampleSpec (change_value sampleSpec ⟨5, some (.from_value 4 "4"), false⟩).2.1).2.1.cache =
       some (.from_value 5 "5") ∧
     value sampleSpec (value sampleSpec (change_value sampleSpec ⟨5, some (.from_value 4 "4"), false⟩).2.1).2.1 =
       (.ok (.from_value 5 "5"),
        (value sampleSpec (change_value sampleSpec ⟨5, some (.from_value 4 "4"), false⟩).2.1).2.1,
        Trace.zero)) :=
  ⟨rfl, c1_change_value_invalidates_then_single_recompute sampleSpec
    ⟨5, some (.from_value 4 "4"), false⟩ (.from_value 5 "5") rfl⟩

/-! ## C2: capture of parse/validate failures, degraded printer details -/

/-- C2: When `value()` runs with no cached value it computes via
`parse()` then `validate()`: a `ParseError` or `ValidationError` raised
by either is captured into an error `ParsedValue` that `value()` returns
(it does not raise); when both succeed, the detail string comes from the
joined plaintext printer, and a `PlaintextPrintError` from the printer is
degraded into an inline error-description detail string while the value
itself is still returned as `Ok`. -/
theorem c2_value_error_capture_and_printer_degrade
    {U T : Type} (w : WSpec U T) (s : WState U T) (h : s.cache = none) :
    (∀ e : PyError, w.parse s.ui = .error e → e.isParseOrValidation = true →
      (value w s).1 = .ok (.from_error e)) ∧
    (∀ (v : T) (e : PyError), w.parse s.ui = .ok v →
      w.validate s.ui v = .error e → e.isParseOrValidation = true →
      (value w s).1 = .ok (.from_error e)) ∧
    (∀ (v : T) (e : PyError), w.parse s.ui = .ok v →
      w.validate s.ui v = .ok () → w.printer s.ui v = .error e →
      e.isPlaintextPrint = true →
      (value w s).1 = .ok (.from_value v
        ("details could not be loaded because of a parser error:\n" ++
          error_details e)) ∧
      ∀ pv, (value w s).1 = .ok pv → pv.is_ok = true) ∧
    (∀ (v : T) (d : String), w.parse s.ui = .ok v →
      w.validate s.ui v = .ok () → w.printer s.ui v = .ok d →
      (value w s).1 = .ok (.from_value v d)) := by
  refine ⟨fun e he hk => ?_, fun v e hv he hk => ?_,
    fun v e hv hval he hk => ⟨?_, ?_⟩, fun v d hv hval hd => ?_⟩ <;>
    simp_all [value, reload_value, ParsedValue.is_ok]

/-- A widget whose `validate` raises a `ValidationError` and a widget
whose printer raises a `PlaintextPrintError`, for witness purposes. -/
def sampleRejectSpec : WSpec Int Int where
  parse := fun u => .ok u
  validate := fun _ _ => .error (.validationError (some "rejected") none)
  printer := fun _ v => .ok (toString v)

/-- A widget whose joined printer raises a `PlaintextPrintError`. -/
def sampleBadPrinterSpec : WSpec Int Int where
  parse := fun u => .ok u
  validate := fun _ _ => .ok ()
  printer := fun _ _ => .error (.plaintextPrintError (some "unprintable") none)

/-- Witness for C2: the validation-failure capture at a concrete widget,
and the degraded-details path at another. -/
theorem c2_witness :
    ((value sampleRejectSpec ⟨7, none, false⟩).1 =
      .ok (.from_error (.validationError (some "rejected") none))) ∧
    ((value sampleBadPrinterSpec ⟨7, none, false⟩).1 =
      .ok (.from_value 7
        ("details could not be loaded because of a parser error:\n" ++
          error_details (.plaintextPrintError (some "unprintable") none)))) :=
  ⟨(c2_value_error_capture_and_printer_degrade sampleRejectSpec
      ⟨7, none, false⟩ rfl).2.1 7
      (.validationError (some "rejected") none) rfl rfl rfl,
   ((c2_value_error_capture_and_printer_degrade sampleBadPrinterSpec
      ⟨7, none, false⟩ rfl).2.2.1 7
      (.plaintextPrintError (some "unprintable") none) rfl rfl rfl rfl).1⟩

/-! ## C10: foreign exceptions escape `value()` and leave the cache unset -/

/-- C10: If `parse()` or `validate()` raises an exception that is
neither a `ParseError` nor a `ValidationError`, `value()` propagates the
exception to its caller instead of returning an error `ParsedValue`, the
widget state is left unchanged with the cached value still unset, and a
subsequent `value()` call runs the computation (hence `parse()`) again. -/
theorem c10_foreign_exception_escapes_value
    {U T : Type} (w : WSpec U T) (s : WState U T) (h : s.cache = none) :
    (∀ e : PyError, w.parse s.ui = .error e → e.isParseOrValidation = false →
      value w s = (.error e, s, ⟨0, 0, 0, 1⟩) ∧
      (value w (value w s).2.1).2.2.recomputes = 1) ∧
    (∀ (v : T) (e : PyError), w.parse s.ui = .ok v →
      w.validate s.ui v = .error e → e.isParseOrValidation = false →
      value w s = (.error e, s, ⟨0, 0, 0, 1⟩) ∧
      (value w (value w s).2.1).2.2.recomputes = 1) := by
  obtain ⟨ui, cache, sup⟩ := s
  subst h
  refine ⟨fun e he hk => ?_, fun v e hv he hk => ?_⟩ <;>
    simp_all [value, reload_value]

/-- Witness for C10 at a concrete widget whose `parse` raises a
`ValueError`. -/
theorem c10_witness :
    (value sampleBadSpec ⟨3, none, false⟩ =
      (.error (.valueError (some "boom") none), ⟨3, none, false⟩, ⟨0, 0, 0, 1⟩) ∧
     (value sampleBadSpec (value sampleBadSpec ⟨3, none, false⟩).2.1).2.2.recomputes = 1) :=
  (c10_foreign_exception_escapes_value sampleBadSpec ⟨3, none, false⟩ rfl).1
    (.valueError (some "boom") none) rfl rfl

/-! ## C4: what `suppress_update` actually batches -/

/-- While `_suppress_update` is set, every UI mutation's `change_value`
still invalidates the cache and emits `on_change`; only the indicator
refresh (and the value recomputation it would trigger) is skipped. -/
theorem run_mutations_suppressed {U T : Type} (w : WSpec U T)
    (fs : List (U → U)) (s : WState U T) (h : s.suppress = true) :
    run_mutations w fs s =
      (.ok (),
       ⟨foldMutations fs s.ui, if fs.isEmpty then s.cache else none, true⟩,
       ⟨fs.length, fs.length, 0, 0⟩) := by
  induction fs generalizing s with
  | nil =>
    obtain ⟨ui, c, sup⟩ := s
    simp_all [run_mutations, foldMutations, Trace.zero]
  | cons f rest ih =>
    obtain ⟨ui, c, sup⟩ := s
    subst h
    simp [run_mutations, apply_mutation, change_value, update_indicator,
      Trace.zero, Trace.add, ih (s := ⟨f ui, none, true⟩) rfl, foldMutations,
      Nat.add_comm]

/-- C4, amended: For a widget with updates not initially suppressed,
running several UI mutations inside a `suppress_update()` region does NOT
batch invalidations or `on_change` notifications: each of the `n`
mutations still triggers one invalidation and one `on_change` emission,
and the exit `change_value` adds one more of each (`n + 1` in total).
What the region batches is the indicator refresh and the value
recomputation it triggers: none occur during the region, and exactly one
of each occurs, at the exit of the region, leaving the cache freshly
parsed from the final UI state. -/
theorem c4_suppress_update_batches_indicator_only
    {U T : Type} (w : WSpec U T) (fs : List (U → U)) (s : WState U T)
    (pv : ParsedValue T) (hsup : s.suppress = false)
    (h : reload_value w (foldMutations fs s.ui) = .ok pv) :
    (suppress_update_region w fs s).1 = .ok () ∧
    (suppress_update_region w fs s).2.2 =
      ⟨fs.length + 1, fs.length + 1, 1, 1⟩ ∧
    (suppress_update_region w fs s).2.1 =
      ⟨foldMutations fs s.ui, some pv, false⟩ := by
  obtain ⟨ui, c, sup⟩ := s
  subst hsup
  simp only [suppress_update_region,
    run_mutations_suppressed w fs ⟨ui, c, true⟩ rfl]
  simp_all [change_value, update_indicator, value, Trace.add, Trace.zero]

/-- Witness for the amended C4 at a concrete widget: two mutations in a
suppressed region produce three invalidations, three emissions and one
indicator refresh. -/
theorem c4_witness :
    (suppress_update_region sampleSpec
      [fun n => n + 1, fun n => n + 1] ⟨0, none, false⟩).1 = .ok () ∧
    (suppress_update_region sampleSpec
      [fun n => n + 1, fun n => n + 1] ⟨0, none, false⟩).2.2 =
      ⟨(2 : Nat) + 1, (2 : Nat) + 1, 1, 1⟩ ∧
    (suppress_update_region sampleSpec
      [fun n => n + 1, fun n => n + 1] ⟨0, none, false⟩).2.1 =
      ⟨foldMutations [fun n => n + 1, fun n => n + 1] (0 : Int),
       some (.from_value 2 "2"), false⟩ :=
  c4_suppress_update_batches_indicator_only sampleSpec
    [fun n => n + 1, fun n => n + 1] ⟨0, none, false⟩
    (.from_value 2 "2") rfl rfl

/-- C4, counterexample: Two UI mutations inside a `suppress_update()`
region on a concrete widget yield three cache invalidations and three
`on_change` emissions — not the single invalidation and single change
notification at region exit that the claim states. -/
theorem c4_counterexample :
    (suppress_update_region sampleSpec
      [fun n => n + 1, fun n => n + 1] ⟨0, none, false⟩).2.2.invalidations = 3 ∧
    (suppress_update_region sampleSpec
      [fun n => n + 1, fun n => n + 1] ⟨0, none, false⟩).2.2.emissions = 3 ∧
    ¬((suppress_update_region sampleSpec
        [fun n => n + 1, fun n => n + 1] ⟨0, none, false⟩).2.2.invalidations = 1 ∧
      (suppress_update_region sampleSpec
        [fun n => n + 1, fun n => n + 1] ⟨0, none, false⟩).2.2.emissions = 1) := by
  refine ⟨rfl, rfl, ?_⟩
  intro hcontra
  simp only [show (suppress_update_region sampleSpec
      [fun n => n + 1, fun n => n + 1] ⟨0, none, false⟩).2.2.invalidations = 3
    from rfl] at hcontra
  exact absurd hcontra.1 (by decide)

/-! ## C3: `ValueWidgetTemplate.extract_default`

A template, for the purposes of default extraction, contributes per key a
candidate value: its explicit keyword argument if set to a non-`None`
value, else the widget class's uppercase convention attribute.  The sink
is a Python dict, so presence and value are modelled separately
(`String → Option (Option V)`): the skip test `k in sink` is a membership
test, while `upper_space` is consulted by value (`is not None`). -/

/-- What `extract_default` reads from one template: `t.kwargs.get(k)`
(with `none` covering both an absent key and an explicit `None` value,
which the code treats identically) and `getattr(t.widget_cls, K, None)`
for an uppercase attribute name `K`. -/
structure TemplateEntry (V : Type) where
  kwargs : String → Option V
  clsAttr : String → Option V

/-- The candidate default one template contributes for key `k`:
`v = t.kwargs.get(k); if v is None: v = getattr(t.widget_cls, k.upper(), None)`. -/
def candidate {V : Type} (t : TemplateEntry V) (k : String) : Option V :=
  match t.kwargs k with
  | some v => some v
  | none => t.clsAttr k.toUpper

/-- The loop body of `combine_key` in
`ValueWidgetTemplate.extract_default`, with `ret` the accumulator:
a candidate equal to `union` returns `union` immediately, any other
non-`None` candidate replaces `ret`. -/
def combine_key_aux {V : Type} [DecidableEq V] (u : V) (k : String)
    (ret : Option V) : List (TemplateEntry V) → Option V
  | [] => ret
  | t :: rest =>
    match candidate t k with
    | none => combine_key_aux u k ret rest
    | some v => if v = u then some u else combine_key_aux u k (some v) rest

/-- Models `combine_key(k)` from `ValueWidgetTemplate.extract_default`. -/
def combine_key {V : Type} [DecidableEq V] (templates : List (TemplateEntry V))
    (u : V) (k : String) : Option V :=
  combine_key_aux u k none templates

/-- The last non-`None` candidate over the templates, starting from an
accumulator (`none` at the top level). -/
def last_candidate_from {V : Type} (ret : Option V)
    (templates : List (TemplateEntry V)) (k : String) : Option V :=
  templates.foldl (fun acc t =>
    match candidate t k with
    | none => acc
    | some v => some v) ret

/-- One iteration of the `for k in keys` loop of `extract_default`: skip
the key if it is already in the sink dict or its uppercase name is set
(non-`None`) in `upper_space`; otherwise store `combine_key(k)` in the
sink when it is non-`None`. -/
def extract_default_step {V : Type} [DecidableEq V]
    (templates : List (TemplateEntry V)) (upper_space : String → Option V)
    (u : V) (sk : String → Option (Option V)) (k : String) :
    String → Option (Option V) :=
  if (sk k).isSome ∨ (upper_space k.toUpper).isSome then sk
  else
    match combine_key templates u k with
    | none => sk
    | some v => Function.update sk k (some (some v))

/-- Models `ValueWidgetTemplate.extract_default`: run the loop iteration over the
requested keys in order. -/
def extract_default {V : Type} [DecidableEq V]
    (templates : List (TemplateEntry V)) (sink : String → Option (Option V))
    (upper_space : String → Option V) (keys : List String) (u : V) :
    String → Option (Option V) :=
  match keys with
  | [] => sink
  | k :: rest =>
    extract_default templates (extract_default_step templates upper_space u sink k)
      upper_space rest u

/-- The default key tuple of `extract_default` when `keys` is elided. -/
def extractDefaultKeys : List String :=
  ["make_plaintext", "make_indicator", "make_title", "auto_func"]

/-- The loop step never breaks agreement of the sink with `combine_key`
at a key: a step at the same key either skips (the entry is set) or
writes exactly `combine_key`, and a step at another key leaves the entry
alone. -/
theorem extract_default_step_preserves {V : Type} [DecidableEq V]
    (templates : List (TemplateEntry V)) (upper_space : String → Option V)
    (u : V) (k k' : String) (sink : String → Option (Option V))
    (h : sink k = (combine_key templates u k).map (fun v => some v)) :
    extract_default_step templates upper_space u sink k' k =
      (combine_key templates u k).map (fun v => some v) := by
  unfold extract_default_step
  by_cases hskip : (sink k').isSome ∨ (upper_space k'.toUpper).isSome
  · rw [if_pos hskip]; exact h
  · rw [if_neg hskip]
    rcases hc : combine_key templates u k' with _ | v
    · exact h
    · by_cases hkk : k' = k
      · subst hkk
        show Function.update sink k' (some (some v)) k' = _
        rw [Function.update_same, hc]
        rfl
      · show Function.update sink k' (some (some v)) k = _
        rw [Function.update_noteq (fun hkk' => hkk hkk'.symm)]
        exact h

/-- Processing further keys preserves a sink entry that already agrees
with `combine_key`. -/
theorem extract_default_preserves {V : Type} [DecidableEq V]
    (templates : List (TemplateEntry V)) (upper_space : String → Option V)
    (u : V) (k : String) :
    ∀ (keys : List String) (sink : String → Option (Option V)),
      sink k = (combine_key templates u k).map (fun v => some v) →
      extract_default templates sink upper_space keys u k =
        (combine_key templates u k).map (fun v => some v) := by
  intro keys
  induction keys with
  | nil => intro sink h; exact h
  | cons k' rest ih =>
    intro sink h
    exact ih _ (extract_default_step_preserves templates upper_space u k k' sink h)

/-- A candidate equal to the union polarity makes `combine_key_aux`
return the union value, whatever the accumulator and later templates. -/
theorem combine_key_aux_of_mem_union {V : Type} [DecidableEq V]
    (u : V) (k : String) :
    ∀ (templates : List (TemplateEntry V)) (ret : Option V),
      (∃ t ∈ templates, candidate t k = some u) →
      combine_key_aux u k ret templates = some u := by
  intro templates
  induction templates with
  | nil => intro ret h; simp at h
  | cons t rest ih =>
    intro ret h
    rcases h with ⟨t', ht', hc⟩
    rcases List.mem_cons.mp ht' with h | h
    · subst h
      simp [combine_key_aux, hc]
    · rcases hcand : candidate t k with _ | v
      · exact (by simpa [combine_key_aux, hcand] using ih ret ⟨t', h, hc⟩)
      · by_cases hv : v = u
        · simp [combine_key_aux, hcand, hv]
        · simpa [combine_key_aux, hcand, hv] using ih (some v) ⟨t', h, hc⟩

/-- With no candidate equal to the union polarity, `combine_key_aux`
computes the last non-`None` candidate (falling back to the accumulator). -/
theorem combine_key_aux_of_no_union {V : Type} [DecidableEq V]
    (u : V) (k : String) :
    ∀ (templates : List (TemplateEntry V)) (ret : Option V),
      (∀ t ∈ templates, candidate t k ≠ some u) →
      combine_key_aux u k ret templates = last_candidate_from ret templates k := by
  intro templates
  induction templates with
  | nil => intro ret _; rfl
  | cons t rest ih =>
    intro ret h
    rcases hcand : candidate t k with _ | v
    · simpa [combine_key_aux, hcand, last_candidate_from] using
        ih ret (fun t' ht' => h t' (List.mem_cons_of_mem t ht'))
    · have hv : v ≠ u := fun hvu => h t (List.mem_cons_self t rest) (by rw [hcand, hvu])
      simpa [combine_key_aux, hcand, hv, last_candidate_from] using
        ih (some v) (fun t' ht' => h t' (List.mem_cons_of_mem t ht'))

/-- C3: For `extract_default` over a sequence of templates with union
polarity `u`: a requested key `k` that is not already in the sink and
whose uppercase name is absent or `None` in `upper_space` ends up bound
to `combine_key(k)`, where the candidate of each template is its explicit
kwarg for `k`, falling back to the widget class's uppercase attribute; if
any candidate equals `u` the result is `u` — decided at the first such
candidate, so the templates after it are irrelevant — otherwise the
result is the last non-`None` candidate; and with no candidate at all the
key is left unset in the sink. -/
theorem c3_extract_default_union_shortcircuit
    {V : Type} [DecidableEq V] (templates : List (TemplateEntry V)) (u : V)
    (keys : List String) (sink : String → Option (Option V))
    (upper_space : String → Option V) (k : String)
    (hk : k ∈ keys) (hsink : sink k = none)
    (hupper : upper_space k.toUpper = none) :
    extract_default templates sink upper_space keys u k =
      (combine_key templates u k).map (fun v => some v) ∧
    ((∃ t ∈ templates, candidate t k = some u) →
      combine_key templates u k = some u) ∧
    (∀ (pre post post' : List (TemplateEntry V)) (t : TemplateEntry V),
      candidate t k = some u →
      combine_key (pre ++ t :: post) u k = combine_key (pre ++ t :: post') u k) ∧
    ((∀ t ∈ templates, candidate t k ≠ some u) →
      combine_key templates u k = last_candidate_from none templates k) ∧
    ((∀ t ∈ templates, candidate t k = none) →
      extract_default templates sink upper_space keys u k = none) := by
  have hmain : ∀ (keys' : List String) (sk : String → Option (Option V)),
      k ∈ keys' → sk k = none →
      extract_default templates sk upper_space keys' u k =
        (combine_key templates u k).map (fun v => some v) := by
    intro keys'
    induction keys' with
    | nil => intro sk hmem _; simp at hmem
    | cons k' rest ih =>
      intro sk hmem hsk
      by_cases hkk : k' = k
      · subst hkk
        refine extract_default_preserves templates upper_space u k' rest _ ?_
        unfold extract_default_step
        rw [if_neg (by simp [hsk, hupper])]
        rcases hc : combine_key templates u k' with _ | v
        · show sk k' = _
          rw [hsk]; rfl
        · show Function.update sk k' (some (some v)) k' = _
          rw [Function.update_same]
          rfl
      · have hkrest : k ∈ rest := by
          rcases List.mem_cons.mp hmem with h | h
          · exact absurd h.symm hkk
          · exact h
        refine ih _ hkrest ?_
        unfold extract_default_step
        by_cases hskip : (sk k').isSome ∨ (upper_space k'.toUpper).isSome
        · rw [if_pos hskip]; exact hsk
        · rw [if_neg hskip]
          rcases hc : combine_key templates u k' with _ | v
          · exact hsk
          · show Function.update sk k' (some (some v)) k = none
            rw [Function.update_noteq (fun hkk' => hkk hkk'.symm)]
            exact hsk
  have hmain := hmain keys sink hk hsink
  refine ⟨hmain, fun h => combine_key_aux_of_mem_union u k templates none h,
    fun pre post post' t ht => ?_, fun h => combine_key_aux_of_no_union u k templates none h,
    fun h => ?_⟩
  · have h1 := combine_key_aux_of_mem_union u k (pre ++ t :: post) none
      ⟨t, by simp, ht⟩
    have h2 := combine_key_aux_of_mem_union u k (pre ++ t :: post') none
      ⟨t, by simp, ht⟩
    rw [combine_key, h1, combine_key, h2]
  · have hnone : combine_key templates u k = none := by
      rw [combine_key, combine_key_aux_of_no_union u k templates none
        (fun t ht => by rw [h t ht]; simp)]
      have : ∀ ts, (∀ t ∈ ts, candidate t k = none) →
          last_candidate_from (V := V) none ts k = none := by
        intro ts
        induction ts with
        | nil => intro _; rfl
        | cons t rest ih2 =>
          intro hall
          simpa [last_candidate_from, hall t (List.mem_cons_self t rest)] using
            ih2 (fun t' ht' => hall t' (List.mem_cons_of_mem t ht'))
      exact this templates h
    rw [hmain, hnone]
    rfl

/-- A template with no explicit kwargs whose widget class sets
`MAKE_PLAINTEXT = False`. -/
def tmplClassFalse : TemplateEntry Bool :=
  ⟨fun _ => none, fun k => if k = "MAKE_PLAINTEXT" then some false else none⟩

/-- A template passing `make_plaintext=True` explicitly. -/
def tmplKwargTrue : TemplateEntry Bool :=
  ⟨fun k => if k = "make_plaintext" then some true else none, fun _ => none⟩

/-- Witness for C3: with one template whose class attribute is `False`
and one whose explicit kwarg is `True`, union polarity `True` wins and is
written into an empty sink. -/
theorem c3_witness :
    extract_default [tmplClassFalse, tmplKwargTrue] (fun _ => none)
      (fun _ => none) ["make_plaintext"] true "make_plaintext" =
      some (some true) := by
  have h := c3_extract_default_union_shortcircuit
    [tmplClassFalse, tmplKwargTrue] true ["make_plaintext"]
    (fun _ => none) (fun _ => none) "make_plaintext"
    (List.mem_singleton.mpr rfl) rfl rfl
  rw [h.1, h.2.1 ⟨tmplKwargTrue, by simp, rfl⟩]
  rfl

/-! ## C8: `ValueWidgetTemplate.template` merges without mutating

A template is a `(widget_class, args, kwargs)` triple.  `args` is a
Python tuple (a list here); `kwargs` is a dict, modelled as a presence-aware map
(`some` = key present).  The embedding is pure, so the original template
cannot be mutated by construction; the theorem pins down the merge
semantics of `{**self.kwargs, **kwargs}` (new keys win) and
`self.args + args` (append). -/

/-- Models `ValueWidgetTemplate`: a deferred-construction descriptor.  `A` is
the domain of positional arguments, `B` of keyword-argument values. -/
structure ValueWidgetTemplate (A B : Type) where
  widget_cls : String
  args : List A
  kwargs : String → Option B

/-- Models `ValueWidgetTemplate.template`: a further template from additional
parameters, with `args = self.args + args` and
`kwargs = {**self.kwargs, **kwargs}`. -/
def ValueWidgetTemplate.template {A B : Type} (t : ValueWidgetTemplate A B)
    (args : List A) (kwargs : String → Option B) : ValueWidgetTemplate A B :=
  { widget_cls := t.widget_cls
    args := t.args ++ args
    kwargs := fun k =>
      match kwargs k with
      | some v => some v
      | none => t.kwargs k }

/-- C8: `t.template(*args, **kwargs)` returns a template of the same
widget class whose positional arguments are `t`'s followed by the new
ones and whose keyword arguments are `t`'s merged with the new ones (a
new keyword argument overrides, an absent one falls through to `t`'s).
The embedding is pure, so `t`'s own `widget_cls`, `args` and `kwargs` are
untouched by construction. -/
theorem c8_template_merge {A B : Type} (t : ValueWidgetTemplate A B)
    (args : List A) (kwargs : String → Option B) :
    (t.template args kwargs).widget_cls = t.widget_cls ∧
    (t.template args kwargs).args = t.args ++ args ∧
    (∀ (k : String) (v : B), kwargs k = some v →
      (t.template args kwargs).kwargs k = some v) ∧
    (∀ k : String, kwargs k = none →
      (t.template args kwargs).kwargs k = t.kwargs k) := by
  refine ⟨rfl, rfl, fun k v h => ?_, fun k h => ?_⟩ <;>
    simp [ValueWidgetTemplate.template, h]

/-- A concrete template for the C8 witness. -/
def sampleTemplate : ValueWidgetTemplate String Int :=
  ⟨"IntEdit", ["sample"], fun k => if k = "make_title" then some 1 else none⟩

/-- Concrete additional keyword arguments for the C8 witness. -/
def sampleNewKwargs : String → Option Int :=
  fun k => if k = "make_title" then some 2 else none

/-- Witness for C8 at a concrete template: new kwargs override, absent
keys fall through, args append. -/
theorem c8_witness :
    (sampleTemplate.template ["extra"] sampleNewKwargs).widget_cls = "IntEdit" ∧
    (sampleTemplate.template ["extra"] sampleNewKwargs).args =
      ["sample"] ++ ["extra"] ∧
    (sampleTemplate.template ["extra"] sampleNewKwargs).kwargs "make_title" =
      some 2 ∧
    (sampleTemplate.template ["extra"] sampleNewKwargs).kwargs "make_help" =
      sampleTemplate.kwargs "make_help" := by
  have h := c8_template_merge sampleTemplate ["extra"] sampleNewKwargs
  exact ⟨h.1, h.2.1, h.2.2.1 "make_title" 2 (by simp [sampleNewKwargs]),
    h.2.2.2 "make_help" (by simp [sampleNewKwargs])⟩

/-! ## C5: the confirmer widget (`fidget/widgets/confirmer.py`)

The confirmer's subclass-relevant state is its `cancel_flag` plus the
inner widget's current `value()` result; `cancel_value` and
`close_on_confirm` are construction-time parameters.  Its `validate` is
the base `ValueWidget.validate` (the injected `validation_func`), and the
joined printer is abstracted as a function of the value. -/

/-- Construction-time parameters and inherited hooks of a
`FidgetConfirmer`. -/
structure ConfirmerSpec (V : Type) where
  cancel_value : V
  close_on_confirm : Bool
  validation_func : V → Except PyError Unit
  printer : V → Except PyError String

/-- The UI state a confirmer's `parse` reads: the cancel flag and the
inner widget's resolved `value()`. -/
structure ConfirmerUI (V : Type) where
  cancel_flag : Bool
  inner : ParsedValue V
  deriving Repr, DecidableEq

/-- Models `FidgetConfirmer.parse`: the configured `cancel_value` if cancel was
clicked; otherwise the inner widget's value, re-raised as a `ParseError`
chained from the inner error when the inner value is not ok.
(`ParseError(offender=...)` carries no positional args, so its message is
the empty string.) -/
def confirmer_parse {V : Type} (c : ConfirmerSpec V) (ui : ConfirmerUI V) :
    Except PyError V :=
  if ui.cancel_flag then .ok c.cancel_value
  else
    match ui.inner with
    | .from_value v _ => .ok v
    | .from_error e => .error (.parseError (some "") (some e))

/-- The confirmer as a `ValueWidget` behaviour. -/
def ConfirmerSpec.toWSpec {V : Type} (c : ConfirmerSpec V) :
    WSpec (ConfirmerUI V) V where
  parse := confirmer_parse c
  validate := fun _ v => c.validation_func v
  printer := fun _ v => c.printer v

/-- The user-visible outcome of an Ok/Cancel button click. -/
structure ClickOutcome where
  closed : Bool
  errorDialog : Bool
  deriving Repr, DecidableEq

/-- Models `FidgetConfirmer._ok_btn_clicked`: clear the cancel flag, run
`change_value`, and if `close_on_confirm` is set read `self.value()`:
close when it is ok, otherwise show a critical error dialog and stay
open. -/
def ok_btn_clicked {V : Type} (c : ConfirmerSpec V)
    (s : WState (ConfirmerUI V) V) :
    Except PyError ClickOutcome × WState (ConfirmerUI V) V :=
  let s0 : WState (ConfirmerUI V) V :=
    { s with ui := { s.ui with cancel_flag := false } }
  match change_value c.toWSpec s0 with
  | (.ok (), s1, _) =>
    if c.close_on_confirm then
      match value c.toWSpec s1 with
      | (.ok pv, s2, _) =>
        if pv.is_ok then (.ok ⟨true, false⟩, s2) else (.ok ⟨false, true⟩, s2)
      | (.error e, s2, _) => (.error e, s2)
    else (.ok ⟨false, false⟩, s1)
  | (.error e, s1, _) => (.error e, s1)

/-- C5: For a confirmer: with the cancel flag set, `parse()` returns
the configured `cancel_value`, so the widget's `value()` resolves to an
ok `ParsedValue` holding `cancel_value` regardless of the inner widget's
validity (in particular `Ok(None)` when `cancel_value` is `None`);
with the flag clear, `parse()` delegates to the inner widget's value and
raises a `ParseError` chained from the inner error when that value is not
ok; and with `close_on_confirm` set, clicking Ok with an invalid inner
value shows an error dialog and does not close the widget. -/
theorem c5_confirmer_cancel_and_close_on_confirm {V : Type} :
    (∀ (c : ConfirmerSpec V) (ui : ConfirmerUI V), ui.cancel_flag = true →
      confirmer_parse c ui = .ok c.cancel_value) ∧
    (∀ (c : ConfirmerSpec V) (s : WState (ConfirmerUI V) V) (d : String),
      s.ui.cancel_flag = true → s.cache = none →
      c.validation_func c.cancel_value = .ok () →
      c.printer c.cancel_value = .ok d →
      (value c.toWSpec s).1 = .ok (.from_value c.cancel_value d) ∧
      ∀ pv, (value c.toWSpec s).1 = .ok pv → pv.is_ok = true) ∧
    (∀ (c : ConfirmerSpec V) (ui : ConfirmerUI V) (v : V) (d : String),
      ui.cancel_flag = false → ui.inner = .from_value v d →
      confirmer_parse c ui = .ok v) ∧
    (∀ (c : ConfirmerSpec V) (ui : ConfirmerUI V) (e : PyError),
      ui.cancel_flag = false → ui.inner = .from_error e →
      confirmer_parse c ui = .error (.parseError (some "") (some e))) ∧
    (∀ (c : ConfirmerSpec V) (s : WState (ConfirmerUI V) V) (e : PyError),
      c.close_on_confirm = true → s.ui.inner = .from_error e →
      (ok_btn_clicked c s).1 = .ok ⟨false, true⟩) := by
  refine ⟨fun c ui h => ?_, fun c s d hflag hcache hval hprint => ⟨?_, ?_⟩,
    fun c ui v d hflag hinner => ?_, fun c ui e hflag hinner => ?_,
    fun c s e hclose hinner => ?_⟩
  · simp [confirmer_parse, h]
  · obtain ⟨⟨cf, inner⟩, cache, sup⟩ := s
    simp_all [value, reload_value, ConfirmerSpec.toWSpec, confirmer_parse]
  · obtain ⟨⟨cf, inner⟩, cache, sup⟩ := s
    intro pv hpv
    simp_all [value, reload_value, ConfirmerSpec.toWSpec, confirmer_parse]
    subst hpv
    rfl
  · simp [confirmer_parse, hflag, hinner]
  · simp [confirmer_parse, hflag, hinner]
  · obtain ⟨⟨cf, inner⟩, cache, sup⟩ := s
    subst hinner
    cases sup <;>
      simp [ok_btn_clicked, change_value, update_indicator, value,
        reload_value, ConfirmerSpec.toWSpec, confirmer_parse, hclose,
        PyError.isParseOrValidation, PyError.parseError, ParsedValue.is_ok]

/-- Witness for C5 with `cancel_value = None` (modelled as
`none : Option Int`): cancelling yields `Ok(None)` although the inner
widget is invalid, and with `close_on_confirm` an Ok click on the invalid
inner shows the error dialog without closing. -/
theorem c5_witness :
    (value (ConfirmerSpec.toWSpec
        ⟨(none : Option Int), true, fun _ => .ok (), fun _ => .ok "None"⟩)
      ⟨⟨true, .from_error (.parseError (some "inner bad") none)⟩, none, false⟩).1 =
      .ok (.from_value none "None") ∧
    (ok_btn_clicked
        ⟨(none : Option Int), true, fun _ => .ok (), fun _ => .ok "None"⟩
      ⟨⟨false, .from_error (.parseError (some "inner bad") none)⟩, none, false⟩).1 =
      .ok ⟨false, true⟩ :=
  ⟨((c5_confirmer_cancel_and_close_on_confirm (V := Option Int)).2.1
      ⟨none, true, fun _ => .ok (), fun _ => .ok "None"⟩
      ⟨⟨true, .from_error (.parseError (some "inner bad") none)⟩, none, false⟩
      "None" rfl rfl rfl rfl).1,
   (c5_confirmer_cancel_and_close_on_confirm (V := Option Int)).2.2.2.2
      ⟨none, true, fun _ => .ok (), fun _ => .ok "None"⟩
      ⟨⟨false, .from_error (.parseError (some "inner bad") none)⟩, none, false⟩
      (.parseError (some "inner bad") none) rfl rfl⟩

/-! ## The stacked selector widget (`qtalos/widgets/stacked.py`), C6 and C7

The stacked widget owns named inner widgets in insertion order plus the
selector's current index (kept in sync with `QStackedWidget` through
`_selector_changed`).  Each inner is abstracted by its subclass hooks:
its current `parse()` result, `validate`, plaintext printers and parsers,
and a `filled` slot recording the last `fill(v)` it received. -/

/-- An inner widget of a `StackedValueWidget`, by name. -/
structure InnerW (T : Type) where
  name : String
  parse : Except PyError T
  validate : T → Except PyError Unit
  printers : List (T → Except PyError String)
  parsers : List (String → Except PyError T)
  filled : Option T

/-- The state of a `StackedValueWidget`: the named inners in insertion
order and the active index. -/
structure StackedState (T : Type) where
  inners : List (InnerW T)
  current : Nat

/-- Models `StackedValueWidget.current_subwidget`: the active inner. -/
def current_subwidget {T : Type} (s : StackedState T) : Option (InnerW T) :=
  s.inners.get? s.current

/-- The error for an out-of-range active index; unreachable while the
`QStackedWidget` invariant (a valid current index) holds. -/
def noCurrentError : PyError := ⟨.otherError "RuntimeError", none, []⟩

/-- Models `StackedValueWidget.parse`: delegate to the active inner. -/
def stacked_parse {T : Type} (s : StackedState T) : Except PyError T :=
  match current_subwidget s with
  | some o => o.parse
  | none => .error noCurrentError

/-- Models `StackedValueWidget.validate`: delegate to the active inner. -/
def stacked_validate {T : Type} (s : StackedState T) (v : T) :
    Except PyError Unit :=
  match current_subwidget s with
  | some o => o.validate v
  | none => .error noCurrentError

/-- Models `StackedValueWidget.plaintext_printers`: the active inner's printers. -/
def stacked_plaintext_printers {T : Type} (s : StackedState T) :
    List (T → Except PyError String) :=
  match current_subwidget s with
  | some o => o.printers
  | none => []

/-- A value as fed to `StackedValueWidget.fill`: either a plain value for
the active inner, or a `targeted_fill` record naming the option the value
belongs to. -/
inductive FillV (T : Type) where
  | plain (v : T)
  | targeted_fill (option_name : String) (value : T)

/-- The `parser_wrap` closure of
`StackedValueWidget.plaintext_parsers`: run the inactive inner's parser
and wrap a successful result in a `targeted_fill` record carrying the
option name (a parser failure propagates unchanged). -/
def parser_wrap {T : Type} (option_name : String)
    (p : String → Except PyError T) (inp : String) :
    Except PyError (FillV T) :=
  (p inp).map (fun v => .targeted_fill option_name v)

/-- The typed embedding of yielding an active inner's parser unchanged:
the parse behaviour is identical, with the result injected as a plain
fill value. -/
def parser_plain {T : Type} (p : String → Except PyError T) (inp : String) :
    Except PyError (FillV T) :=
  (p inp).map .plain

/-- The `for n, o in self.inners.items()` loop of
`StackedValueWidget.plaintext_parsers`, skipping the active inner
(`if o is current: continue`) and wrapping every parser of the others;
`i` is the insertion index of the head of the remaining list. -/
def wrap_inactive {T : Type} (cur : Nat) :
    Nat → List (InnerW T) → List (String → Except PyError (FillV T))
  | _, [] => []
  | i, o :: rest =>
    (if i = cur then [] else o.parsers.map (parser_wrap o.name)) ++
      wrap_inactive cur (i + 1) rest

/-- Models `StackedValueWidget.plaintext_parsers`: the active inner's parsers
first (unchanged), then every inactive inner's parsers wrapped with that
inner's option name. -/
def stacked_plaintext_parsers {T : Type} (s : StackedState T) :
    List (String → Except PyError (FillV T)) :=
  match current_subwidget s with
  | none => []
  | some cur => cur.parsers.map parser_plain ++ wrap_inactive s.current 0 s.inners

/-- Models `Selector.options[name]`: the index the selector assigned to an
option name (insertion order; names are unique by `add_option`). -/
def selector_option_index {T : Type} (inners : List (InnerW T))
    (name : String) : Option Nat :=
  inners.findIdx? (fun o => o.name = name)

/-- Models `StackedValueWidget.fill`: a `targeted_fill` record first switches
the selector to the named option (which, through the selector's change
signal, sets the stacked widget's current index) and then fills the — now
active — inner with the carried value; a plain value fills the active
inner.  An unknown option name raises the selector's dict `KeyError`. -/
def stacked_fill {T : Type} (s : StackedState T) (v : FillV T) :
    Except PyError (StackedState T) :=
  match v with
  | .plain x =>
    match s.inners.get? s.current with
    | some o =>
      .ok { s with inners := s.inners.set s.current { o with filled := some x } }
    | none => .error noCurrentError
  | .targeted_fill name x =>
    match selector_option_index s.inners name with
    | some idx =>
      match s.inners.get? idx with
      | some o =>
        .ok { inners := s.inners.set idx { o with filled := some x },
              current := idx }
      | none => .error noCurrentError
    | none => .error ⟨.otherError "KeyError", some name, []⟩

/-- Every parser produced by the inactive-inner loop comes from an
inactive inner, wrapped with its name. -/
theorem wrap_inactive_mem {T : Type} (cur : Nat) :
    ∀ (base : Nat) (inners : List (InnerW T))
      (q : String → Except PyError (FillV T)),
      q ∈ wrap_inactive cur base inners →
      ∃ (j : Nat) (o : InnerW T) (p : String → Except PyError T),
        base + j ≠ cur ∧ inners.get? j = some o ∧ p ∈ o.parsers ∧
        q = parser_wrap o.name p := by
  intro base inners
  induction inners generalizing base with
  | nil => intro q hq; simp [wrap_inactive] at hq
  | cons o rest ih =>
    intro q hq
    rcases List.mem_append.mp hq with h | h
    · by_cases hbase : base = cur
      · simp [hbase] at h
      · rw [if_neg hbase] at h
        rcases List.mem_map.mp h with ⟨p, hp, hq'⟩
        exact ⟨0, o, p, by simpa using hbase, rfl, hp, hq'.symm⟩
    · rcases ih (base + 1) q h with ⟨j, o', p, hne, hget, hp, hq'⟩
      exact ⟨j + 1, o', p, by omega, hget, hp, hq'⟩

/-- Conversely, every parser of an inactive inner appears, wrapped, in
the inactive-inner loop's output. -/
theorem wrap_inactive_complete {T : Type} (cur : Nat) :
    ∀ (base : Nat) (inners : List (InnerW T)) (j : Nat) (o : InnerW T)
      (p : String → Except PyError T),
      base + j ≠ cur → inners.get? j = some o → p ∈ o.parsers →
      parser_wrap o.name p ∈ wrap_inactive cur base inners := by
  intro base inners
  induction inners generalizing base with
  | nil => intro j o p _ hget _; simp at hget
  | cons o' rest ih =>
    intro j o p hne hget hp
    cases j with
    | zero =>
      simp only [List.get?] at hget
      injection hget with hget
      subst hget
      refine List.mem_append.mpr (.inl ?_)
      rw [if_neg (by simpa using hne)]
      exact List.mem_map.mpr ⟨p, hp, rfl⟩
    | succ j' =>
      refine List.mem_append.mpr (.inr ?_)
      exact ih (base + 1) j' o p (by omega) hget hp

/-- C6: `plaintext_parsers()` of a stacked widget yields the active
inner's parsers unchanged (their parse behaviour intact, results counted
as plain fill values) and, for every inactive inner, each of its parsers
wrapped so that a successful parse returns a `targeted_fill` record
carrying that inner's option name and the parsed value — and nothing
else.  Calling `fill()` with such a record both switches the selector to
the named option and fills that inner with the value. -/
theorem c6_stacked_parsers_and_targeted_fill {T : Type}
    (s : StackedState T) (cur : InnerW T)
    (hcur : s.inners.get? s.current = some cur) :
    (∀ p ∈ cur.parsers, parser_plain p ∈ stacked_plaintext_parsers s ∧
      ∀ inp, parser_plain p inp = (p inp).map FillV.plain) ∧
    (∀ (j : Nat) (o : InnerW T), j ≠ s.current → s.inners.get? j = some o →
      ∀ p ∈ o.parsers, parser_wrap o.name p ∈ stacked_plaintext_parsers s ∧
        (∀ inp (v : T), p inp = .ok v →
          parser_wrap o.name p inp = .ok (.targeted_fill o.name v)) ∧
        (∀ inp (e : PyError), p inp = .error e →
          parser_wrap o.name p inp = .error e)) ∧
    (∀ q ∈ stacked_plaintext_parsers s,
      (∃ p ∈ cur.parsers, q = parser_plain p) ∨
      (∃ (j : Nat) (o : InnerW T) (p : String → Except PyError T),
        j ≠ s.current ∧ s.inners.get? j = some o ∧ p ∈ o.parsers ∧
        q = parser_wrap o.name p)) ∧
    (∀ (name : String) (x : T) (idx : Nat) (o : InnerW T),
      selector_option_index s.inners name = some idx →
      s.inners.get? idx = some o →
      stacked_fill s (.targeted_fill name x) =
        .ok { inners := s.inners.set idx { o with filled := some x },
              current := idx }) := by
  have hparsers : stacked_plaintext_parsers s =
      cur.parsers.map parser_plain ++ wrap_inactive s.current 0 s.inners := by
    unfold stacked_plaintext_parsers current_subwidget
    rw [hcur]
  refine ⟨fun p hp => ⟨?_, fun inp => rfl⟩,
    fun j o hj hget p hp => ⟨?_, fun inp v hv => ?_, fun inp e he => ?_⟩,
    fun q hq => ?_, fun name x idx o hidx hget => ?_⟩
  · rw [hparsers]
    exact List.mem_append.mpr (.inl (List.mem_map.mpr ⟨p, hp, rfl⟩))
  · rw [hparsers]
    exact List.mem_append.mpr (.inr
      (wrap_inactive_complete s.current 0 s.inners j o p (by omega) hget hp))
  · simp [parser_wrap, hv, Except.map]
  · simp [parser_wrap, he, Except.map]
  · rw [hparsers] at hq
    rcases List.mem_append.mp hq with h | h
    · rcases List.mem_map.mp h with ⟨p, hp, hq'⟩
      exact .inl ⟨p, hp, hq'.symm⟩
    · rcases wrap_inactive_mem s.current 0 s.inners q h with
        ⟨j, o, p, hne, hget, hp, hq'⟩
      exact .inr ⟨j, o, p, by omega, hget, hp, hq'⟩
  · unfold stacked_fill
    dsimp only
    rw [hidx]
    dsimp only
    rw [hget]

/-- C7: For a stacked widget with a valid active index, `parse()`,
`validate(value)` and `plaintext_printers()` each delegate to the active
inner only: they equal the active inner's own hooks, and any other state
with the same active index and the same active inner — whatever its
inactive inners — produces identical results. -/
theorem c7_stacked_delegates_to_active {T : Type}
    (s : StackedState T) (cur : InnerW T)
    (hcur : s.inners.get? s.current = some cur) :
    stacked_parse s = cur.parse ∧
    (∀ v, stacked_validate s v = cur.validate v) ∧
    stacked_plaintext_printers s = cur.printers ∧
    (∀ s' : StackedState T, s'.current = s.current →
      s'.inners.get? s'.current = some cur →
      stacked_parse s' = stacked_parse s ∧
      (∀ v, stacked_validate s' v = stacked_validate s v) ∧
      stacked_plaintext_printers s' = stacked_plaintext_printers s) := by
  refine ⟨?_, fun v => ?_, ?_, fun s' hcur' hget' => ⟨?_, fun v => ?_, ?_⟩⟩
  · unfold stacked_parse current_subwidget; rw [hcur]
  · unfold stacked_validate current_subwidget; rw [hcur]
  · unfold stacked_plaintext_printers current_subwidget; rw [hcur]
  · unfold stacked_parse current_subwidget; rw [hget', hcur]
  · unfold stacked_validate current_subwidget; rw [hget', hcur]
  · unfold stacked_plaintext_printers current_subwidget; rw [hget', hcur]

/-- A concrete two-option stacked state for the witnesses: option "a"
active, option "b" inactive, each with one plaintext parser. -/
def sampleStacked : StackedState Int :=
  { inners :=
      [⟨"a", .ok 1, fun _ => .ok (), [], [fun _ => .ok 10], none⟩,
       ⟨"b", .ok 2, fun _ => .ok (), [], [fun _ => .ok 20], none⟩]
    current := 0 }

/-- The active inner of `sampleStacked`. -/
def sampleStackedA : InnerW Int :=
  ⟨"a", .ok 1, fun _ => .ok (), [], [fun _ => .ok 10], none⟩

/-- The inactive inner of `sampleStacked`. -/
def sampleStackedB : InnerW Int :=
  ⟨"b", .ok 2, fun _ => .ok (), [], [fun _ => .ok 20], none⟩

/-- Witness for C6: in the concrete stacked state, the inactive inner
"b"'s parser appears wrapped, a successful wrapped parse yields the
`targeted_fill` record, and filling with that record switches to "b" and
fills it. -/
theorem c6_witness :
    parser_wrap "b" (fun _ => .ok 20) ∈ stacked_plaintext_parsers sampleStacked ∧
    parser_wrap "b" (fun _ => .ok 20) "x" = .ok (.targeted_fill "b" (20 : Int)) ∧
    stacked_fill sampleStacked (.targeted_fill "b" 20) =
      .ok { inners := sampleStacked.inners.set 1 { sampleStackedB with filled := some 20 },
            current := 1 } := by
  have h := c6_stacked_parsers_and_targeted_fill sampleStacked sampleStackedA rfl
  have hb := h.2.1 1 sampleStackedB (by decide) rfl (fun _ => .ok 20)
    (List.mem_singleton.mpr rfl)
  exact ⟨hb.1, hb.2.1 "x" 20 rfl, h.2.2.2 "b" 20 1 sampleStackedB rfl rfl⟩

/-- Witness for C7 at the concrete stacked state. -/
theorem c7_witness :
    stacked_parse sampleStacked = .ok 1 ∧
    stacked_plaintext_printers sampleStacked = sampleStackedA.printers :=
  ⟨(c7_stacked_delegates_to_active sampleStacked sampleStackedA rfl).1,
   (c7_stacked_delegates_to_active sampleStacked sampleStackedA rfl).2.2.1⟩

/-! ## C9: the line-edit numeric editors (`qtalos/widgets/user_util.py`)

`SimpleEdit` wraps a `LineEdit` (whose `parse` returns the line's text)
in a converter (modelled from the spec, §4.5: `converter.py` is not among
the sources — parse delegates to the inner widget, then applies the
forward conversion, conversion failures become `ParseError`).  `convert`
runs the joined plaintext parser and re-raises `PlaintextParseError` as
`ParseError`.  `IntEdit` inherits `SimpleEdit`'s single registered parser
`int(x, base=0)`; `FloatEdit` registers, in class-dict order, `float`,
`percentage` and `ratio`.  Python floats are modelled over `ℚ`; every
value these theorems touch is exactly representable.  The Python
builtins `int`/`float` are external collaborators, modelled from their
documented string-parsing rules (`inf`/`nan` and locale forms excluded). -/

/-- Python `str.strip()` whitespace (the ASCII portion). -/
def isPySpace (c : Char) : Bool :=
  c = ' ' ∨ c = '\t' ∨ c = '\n' ∨ c = '\r' ∨ c = '\x0b' ∨ c = '\x0c'

/-- Strip leading and trailing whitespace. -/
def pyStrip (cs : List Char) : List Char :=
  ((cs.dropWhile isPySpace).reverse.dropWhile isPySpace).reverse

/-- The value of a digit character in the given base (letters count from
10, as in Python int literals), or `none`. -/
def digitVal? (base : Nat) (c : Char) : Option Nat :=
  let v :=
    if '0' ≤ c ∧ c ≤ '9' then some (c.toNat - '0'.toNat)
    else if 'a' ≤ c ∧ c ≤ 'z' then some (c.toNat - 'a'.toNat + 10)
    else if 'A' ≤ c ∧ c ≤ 'Z' then some (c.toNat - 'A'.toNat + 10)
    else none
  match v with
  | some d => if d < base then some d else none
  | none => none

/-- Accumulate a digit run in the given base, allowing a single
underscore between digits (Python literal grouping); fails on a foreign
character, a trailing underscore or a doubled underscore. -/
def goDigits (base : Nat) : Nat → List Char → Option Nat
  | acc, [] => some acc
  | acc, '_' :: c :: rest =>
    match digitVal? base c with
    | some d => goDigits base (acc * base + d) rest
    | none => none
  | acc, c :: rest =>
    match digitVal? base c with
    | some d => goDigits base (acc * base + d) rest
    | none => none

/-- The digits after a `0x`/`0o`/`0b` prefix: at least one digit, with a
leading underscore also allowed (as in `0x_1A`). -/
def parsePrefixedDigits (base : Nat) (cs : List Char) : Option Nat :=
  match cs with
  | [] => none
  | _ => goDigits base 0 cs

/-- The body of `int(x, base=0)` after sign stripping: base-prefixed
literals, a zero run, or a decimal literal with a nonzero leading digit
(base-0 literal rules reject other leading zeros). -/
def pyIntBase0Body (cs : List Char) : Option Nat :=
  match cs with
  | [] => none
  | ['0'] => some 0
  | '0' :: c :: rest =>
    if c = 'x' ∨ c = 'X' then parsePrefixedDigits 16 rest
    else if c = 'o' ∨ c = 'O' then parsePrefixedDigits 8 rest
    else if c = 'b' ∨ c = 'B' then parsePrefixedDigits 2 rest
    else goDigits 1 0 ('0' :: c :: rest)
  | c :: rest =>
    match digitVal? 10 c with
    | some d => goDigits 10 d rest
    | none => none

/-- The Python builtin `int(x, base=0)` on a string: strip whitespace, an
optional sign, then the base-0 literal body. -/
def pyIntBase0 (s : String) : Option Int :=
  match pyStrip s.data with
  | '+' :: rest => (pyIntBase0Body rest).map Int.ofNat
  | '-' :: rest => (pyIntBase0Body rest).map (fun n => -(n : Int))
  | rest => (pyIntBase0Body rest).map Int.ofNat

/-- Split a leading run of decimal digits off a character list. -/
def spanDigits : List Char → List Nat × List Char
  | [] => ([], [])
  | c :: rest =>
    if c.isDigit then
      match spanDigits rest with
      | (ds, r) => ((c.toNat - 48) :: ds, r)
    else ([], c :: rest)

/-- The numeric value of a digit run. -/
def digitsNatVal (ds : List Nat) : Nat :=
  ds.foldl (fun a d => a * 10 + d) 0

/-- The body of the Python builtin `float` on a string, after sign
stripping: decimal digits, an optional fraction, an optional exponent;
at least one mantissa digit is required and nothing may follow.  The
value `ip.fp × 10^±ev` is assembled as one exact rational. -/
def pyFloatBody (cs : List Char) : Option ℚ :=
  match spanDigits cs with
  | (ip, r1) =>
    let fr2 : List Nat × List Char :=
      match r1 with
      | '.' :: rest => spanDigits rest
      | _ => ([], r1)
    match fr2 with
    | (fp, r2) =>
      if ip.isEmpty ∧ fp.isEmpty then none
      else
        let n : Nat := digitsNatVal (ip ++ fp)
        let fl : Nat := fp.length
        match r2 with
        | [] => some (mkRat (Int.ofNat n) (10 ^ fl))
        | e :: rest =>
          if e = 'e' ∨ e = 'E' then
            let signRest : Bool × List Char :=
              match rest with
              | '+' :: r => (false, r)
              | '-' :: r => (true, r)
              | r => (false, r)
            match spanDigits signRest.2 with
            | (eds, r4) =>
              if eds.isEmpty ∨ ¬r4.isEmpty then none
              else
                let ev : Nat := digitsNatVal eds
                if signRest.1 then some (mkRat (Int.ofNat n) (10 ^ (fl + ev)))
                else some (mkRat (Int.ofNat (n * 10 ^ ev)) (10 ^ fl))
          else none

/-- The Python builtin `float` on a string (finite decimal forms;
`inf`/`nan` are outside the model). -/
def pyFloat (s : String) : Option ℚ :=
  match pyStrip s.data with
  | '+' :: rest => pyFloatBody rest
  | '-' :: rest => (pyFloatBody rest).map (fun q => -q)
  | rest => pyFloatBody rest

/-- Modelled from the spec: `wrap_plaintext_parser(ValueError, f)` from
the absent `plaintext_adapter.py` wraps a callable so that a `ValueError`
is re-raised as `PlaintextParseError(...) from e` (see the analogous
`exc_wrap` in `qtalos/core/__util__.py`). -/
def valueErrorToPlaintext {α : Type} (r : Option α) : Except PyError α :=
  match r with
  | some v => .ok v
  | none => .error (.plaintextParseError none (some (.valueError none none)))

/-- Models `SimpleEdit._func`: `int(x, base=0)` wrapped as a plaintext parser. -/
def intParser (s : String) : Except PyError Int :=
  valueErrorToPlaintext (pyIntBase0 s)

/-- Models `FloatEdit._func`: `float` wrapped as a plaintext parser. -/
def floatParser (s : String) : Except PyError ℚ :=
  valueErrorToPlaintext (pyFloat s)

/-- The character class `[0-9◘]` of the percentage pattern, exactly as
written in the source regex. -/
def isFracDigitOrMark (c : Char) : Bool :=
  c.isDigit ∨ c = '◘'

/-- Group 1 of a full match of the `FloatEdit.percentage` pattern
`([0-9]*(\.[0-9◘]+)?)%` against the input, or `none` when the pattern
does not match. -/
def percentGroup (s : String) : Option String :=
  let cs := s.data
  match cs.getLast? with
  | some '%' =>
    let g := cs.dropLast
    let ok : Bool :=
      match g.dropWhile Char.isDigit with
      | [] => true
      | '.' :: frac => ¬frac.isEmpty ∧ frac.all isFracDigitOrMark
      | _ => false
    if ok then some (String.mk g) else none
  | _ => none

/-- Modelled from the spec: `regex_parser` from the absent
`plaintext_adapter.py` raises a `PlaintextParseError` when the pattern
does not match the input. -/
def regexNoMatchError : PyError := .plaintextParseError (some "no match") none

/-- Models `FloatEdit.percentage`: on a pattern match, `float(m[1]) / 100`, a
`ValueError` becoming `PlaintextParseError`. -/
def percentageParser (s : String) : Except PyError ℚ :=
  match percentGroup s with
  | none => .error regexNoMatchError
  | some g =>
    match pyFloat g with
    | some q => .ok (q / 100)
    | none => .error (.plaintextParseError none (some (.valueError none none)))

/-- The `num` and `den` groups of a full match of the `FloatEdit.ratio`
pattern `(?P<num>[0-9]+)\s*/\s*(?P<den>[1-9][0-9]*)`, or `none`. -/
def ratioGroups (s : String) : Option (String × String) :=
  let cs := s.data
  match cs.span Char.isDigit with
  | (num, r1) =>
    if num.isEmpty then none
    else
      match r1.dropWhile isPySpace with
      | '/' :: r3 =>
        match r3.dropWhile isPySpace with
        | c :: rest =>
          if c.isDigit ∧ c ≠ '0' ∧ rest.all Char.isDigit then
            some (String.mk num, String.mk (c :: rest))
          else none
        | [] => none
      | _ => none

/-- Models `FloatEdit.ratio`: on a pattern match, `float(num) / float(den)`,
conversion `ValueError`s becoming `PlaintextParseError`. -/
def ratioParser (s : String) : Except PyError ℚ :=
  match ratioGroups s with
  | none => .error regexNoMatchError
  | some nd =>
    match pyFloat nd.1, pyFloat nd.2 with
    | some nq, some dq => .ok (nq / dq)
    | _, _ => .error (.plaintextParseError none (some (.valueError none none)))

/-- Modelled from the spec: `join_parsers` from the absent
`plaintext_adapter.py` tries each registered parser in order and returns
the first success, aggregating all failures into one reported
`PlaintextParseError` when every parser fails. -/
def joinParsers {α : Type} (ps : List (String → Except PyError α))
    (s : String) : Except PyError α :=
  match ps with
  | [] => .error (.plaintextParseError (some "all parsers failed") none)
  | p :: rest =>
    match p s with
    | .ok v => .ok v
    | .error _ => joinParsers rest s

/-- Models `SimpleEdit.convert`: run the joined plaintext parser over the inner
line edit's text and re-raise a `PlaintextParseError` as
`ParseError(...) from e`.  Composed with the spec-modelled converter
delegation (`parse` = inner text, then `convert`), this is the editor's
`parse()` as a function of the line content. -/
def simple_edit_parse {α : Type} (ps : List (String → Except PyError α))
    (text : String) : Except PyError α :=
  match joinParsers ps text with
  | .ok v => .ok v
  | .error e => .error (.parseError none (some e))

/-- The parser registrations of `IntEdit` (inherited from `SimpleEdit`:
the single `int(x, base=0)` parser). -/
def intEditParsers : List (String → Except PyError Int) := [intParser]

/-- The parser registrations of `FloatEdit`, in class-dict order:
`float`, `percentage`, `ratio`. -/
def floatEditParsers : List (String → Except PyError ℚ) :=
  [floatParser, percentageParser, ratioParser]

/-- Models `IntEdit`'s parse of the line content. -/
def int_edit_parse (text : String) : Except PyError Int :=
  simple_edit_parse intEditParsers text

/-- Models `FloatEdit`'s parse of the line content. -/
def float_edit_parse (text : String) : Except PyError ℚ :=
  simple_edit_parse floatEditParsers text

/-- Decidable equality of `Except` results, for evaluating the editors
on concrete inputs. -/
instance {ε α : Type} [DecidableEq ε] [DecidableEq α] :
    DecidableEq (Except ε α) := fun x y =>
  match x, y with
  | .ok a, .ok b =>
    if h : a = b then isTrue (h ▸ rfl)
    else isFalse fun hh => h (Except.ok.inj hh)
  | .error a, .error b =>
    if h : a = b then isTrue (h ▸ rfl)
    else isFalse fun hh => h (Except.error.inj hh)
  | .ok _, .error _ => isFalse fun hh => Except.noConfusion hh
  | .error _, .ok _ => isFalse fun hh => Except.noConfusion hh

/-- C9: The int editor parses `"0x1A"` to 26 (base-0 integer literal
rules); the float editor parses `"12.5%"` to 0.125 via its percentage
registration and `"3/4"` to 0.75 via its ratio registration; and on the
input `"abc"` both editors produce a `ParseError`. -/
theorem c9_numeric_editor_parsing :
    int_edit_parse "0x1A" = .ok 26 ∧
    float_edit_parse "12.5%" = .ok (1 / 8 : ℚ) ∧
    float_edit_parse "3/4" = .ok (3 / 4 : ℚ) ∧
    (∃ e : PyError, int_edit_parse "abc" = .error e ∧ e.kind = .parseError) ∧
    (∃ e : PyError, float_edit_parse "abc" = .error e ∧ e.kind = .parseError) := by
  refine ⟨by rfl, by with_unfolding_all decide, by with_unfolding_all decide,
    ⟨⟨.parseError, none, [(.plaintextParseError, some "all parsers failed")]⟩,
      by rfl, rfl⟩,
    ⟨⟨.parseError, none, [(.plaintextParseError, some "all parsers failed")]⟩,
      by rfl, rfl⟩⟩

end QTalos
